import Mathlib

/-!
Verification of the geofencing / proximity core of `src/app.js`
(Heerlen interactive map).

The JavaScript source is embedded shallowly:

* numbers are modelled by `ℝ` (the source computes with IEEE doubles; the
  claims under study are about the exact mathematical functions the source
  spells out, not about rounding),
* positions are pairs `(lng, lat) : ℝ × ℝ`, matching the `[lng, lat]`
  arrays of the source,
* the mutable fields of `GeolocationManager` and the map camera become an
  explicit record `GeoState` threaded through the handlers,
* DOM / map side effects become an emitted command list (`Cmd`).
-/

namespace HeerlenMap

/-- JavaScript `Math.atan2 y x` over the reals (the usual four-quadrant
arctangent, `0` at `(0, 0)`). -/
noncomputable def atan2 (y x : ℝ) : ℝ :=
  if 0 < x then Real.arctan (y / x)
  else if x < 0 ∧ 0 ≤ y then Real.arctan (y / x) + Real.pi
  else if x < 0 ∧ y < 0 then Real.arctan (y / x) - Real.pi
  else if x = 0 ∧ 0 < y then Real.pi / 2
  else if x = 0 ∧ y < 0 then -(Real.pi / 2)
  else 0

/-- Source `GeolocationManager.calculateDistance(lat1, lon1, lat2, lon2)`
(src/app.js lines 520-534): haversine great-circle distance in km with
Earth radius 6371 km.  The identical global function is re-declared at
lines 1709-1723 for the drift guard. -/
noncomputable def calculateDistance (lat1 lon1 lat2 lon2 : ℝ) : ℝ :=
  let toRad : ℝ → ℝ := fun deg => deg * (Real.pi / 180)
  let dLat := toRad (lat2 - lat1)
  let dLon := toRad (lon2 - lon1)
  let a :=
    Real.sin (dLat / 2) * Real.sin (dLat / 2) +
      Real.cos (toRad lat1) * Real.cos (toRad lat2) *
        Real.sin (dLon / 2) * Real.sin (dLon / 2)
  let c := 2 * atan2 (Real.sqrt a) (Real.sqrt (1 - a))
  6371 * c

/-- Constant `CONFIG.MAP.boundary.center` (src/app.js line 15), as `[lng, lat]`. -/
noncomputable def boundaryCenter : ℝ × ℝ := (5.977105864037915, 50.88774161029858)

/-- Constant `CONFIG.MAP.boundary.radius` in km (src/app.js line 16). -/
noncomputable def boundaryRadius : ℝ := 2.2

/-- Constant `CONFIG.MAP.center` (src/app.js line 10), as `[lng, lat]`. -/
noncomputable def configMapCenter : ℝ × ℝ := (5.979642, 50.887634)

/-- Source `GeolocationManager.isWithinBoundary(position)` (src/app.js lines
510-515): the position `[lng, lat]` is within the boundary iff its
haversine distance to the boundary center is at most the boundary radius. -/
def isWithinBoundary (position : ℝ × ℝ) : Prop :=
  calculateDistance position.2 position.1 boundaryCenter.2 boundaryCenter.1 ≤
    boundaryRadius

noncomputable instance (position : ℝ × ℝ) : Decidable (isWithinBoundary position) :=
  inferInstanceAs (Decidable (_ ≤ _))

/-- Evaluation `atan2 0 1 = 0`: the value reached by the haversine formula when the
intermediate `a` is `0`. -/
theorem atan2_zero_one : atan2 0 1 = 0 := by
  unfold atan2
  rw [if_pos one_pos]
  simp

/-- If both half-angle sines vanish, the haversine distance is `0`. -/
theorem calculateDistance_eq_zero_of_sin
    (lat1 lon1 lat2 lon2 : ℝ)
    (hlat : Real.sin ((lat2 - lat1) * (Real.pi / 180) / 2) = 0)
    (hlon : Real.sin ((lon2 - lon1) * (Real.pi / 180) / 2) = 0) :
    calculateDistance lat1 lon1 lat2 lon2 = 0 := by
  unfold calculateDistance
  simp only [hlat, hlon]
  norm_num [atan2_zero_one]

/-- The haversine distance from any point to itself is `0`. -/
theorem calculateDistance_self (lat lon : ℝ) :
    calculateDistance lat lon lat lon = 0 := by
  apply calculateDistance_eq_zero_of_sin <;> norm_num

end HeerlenMap

namespace HeerlenMap

/-- The closure `generateCircle` defined inside
`GeolocationManager.updateSearchRadius` (src/app.js lines 388-412). -/
noncomputable def generateCircle (center : ℝ × ℝ) (radiusInM : ℝ)
    (pointCount : ℕ := 64) : List (ℝ × ℝ) :=
  let pointLatitude := center.2
  let pointLongitude := center.1
  let radiusKm := radiusInM / 1000
  let degreesLongPerKm := radiusKm / (111.32 * Real.cos (pointLatitude * Real.pi / 180))
  let degreesLatPerKm := radiusKm / 110.574
  let points := (List.range pointCount).map fun (i : ℕ) =>
    let angle := ((i : ℝ) / (pointCount : ℝ)) * (2 * Real.pi)
    let dx := degreesLongPerKm * Real.cos angle
    let dy := degreesLatPerKm * Real.sin angle
    (pointLongitude + dx, pointLatitude + dy)
  points ++ [points.headI]

/-- Source `GeolocationManager.createBoundaryCircle` (src/app.js lines 476-505). -/
noncomputable def createBoundaryCircle : List (ℝ × ℝ) :=
  let centerLatitude := boundaryCenter.2
  let centerLongitude := boundaryCenter.1
  let radiusKm := boundaryRadius
  let degreesLongPerKm := radiusKm / (111.32 * Real.cos (centerLatitude * Real.pi / 180))
  let degreesLatPerKm := radiusKm / 110.574
  (List.range 65).map fun (i : ℕ) =>
    let angle := ((i : ℝ) / 64) * (2 * Real.pi)
    let dx := degreesLongPerKm * Real.cos angle
    let dy := degreesLatPerKm * Real.sin angle
    (centerLongitude + dx, centerLatitude + dy)

theorem generateCircle_spec (center : ℝ × ℝ) (radiusInM : ℝ) (pointCount : ℕ)
    (hN : 0 < pointCount) :
    (generateCircle center radiusInM pointCount).length = pointCount + 1 ∧
      (generateCircle center radiusInM pointCount).head? =
        (generateCircle center radiusInM pointCount).getLast? := by
  obtain ⟨k, rfl⟩ : ∃ k, pointCount = k + 1 :=
    ⟨pointCount - 1, (Nat.succ_pred_eq_of_pos hN).symm⟩
  unfold generateCircle
  refine ⟨by simp, ?_⟩
  rw [List.range_succ_eq_map]
  simp only [List.map_cons, List.headI, List.cons_append, List.head?_cons]
  rw [← List.cons_append, List.getLast?_concat]

theorem createBoundaryCircle_spec :
    createBoundaryCircle.length = 65 ∧
      createBoundaryCircle.head? = createBoundaryCircle.getLast? := by
  unfold createBoundaryCircle
  refine ⟨by simp, ?_⟩
  rw [List.head?_map, List.getLast?_map]
  rw [show (List.range 65).head? = some 0 from rfl,
    show (List.range 65).getLast? = some 64 from rfl]
  simp only [Option.map_some']
  have h0 : ((0 : ℕ) : ℝ) / 64 * (2 * Real.pi) = 0 := by norm_num
  have h64 : ((64 : ℕ) : ℝ) / 64 * (2 * Real.pi) = 2 * Real.pi := by norm_num
  rw [h0, h64, Real.cos_two_pi, Real.sin_two_pi, Real.cos_zero, Real.sin_zero]

end HeerlenMap

namespace HeerlenMap

theorem calculateDistance_plus90 (lat lon : ℝ) :
    calculateDistance (lat + 90) lon lat lon = 6371 * (Real.pi / 2) := by
  unfold calculateDistance
  have hlat : (lat - (lat + 90)) * (Real.pi / 180) / 2 = -(Real.pi / 4) := by ring
  have hlon : (lon - lon) * (Real.pi / 180) / 2 = 0 := by ring
  have hsin : Real.sin (-(Real.pi / 4)) * Real.sin (-(Real.pi / 4)) = 1 / 2 := by
    rw [Real.sin_neg, Real.sin_pi_div_four, neg_mul_neg]
    rw [div_mul_div_comm, Real.mul_self_sqrt (by norm_num : (0:ℝ) ≤ 2)]
    norm_num
  have hpos : (0 : ℝ) < Real.sqrt (1 / 2) := Real.sqrt_pos.mpr (by norm_num)
  simp only [hlat, hlon, Real.sin_zero, mul_zero, add_zero, hsin]
  have h12 : (1 : ℝ) - 1 / 2 = 1 / 2 := by norm_num
  rw [h12]
  unfold atan2
  rw [if_pos hpos]
  rw [div_self (ne_of_gt hpos), Real.arctan_one]
  ring

/-- The boundary center itself passes the containment test. -/
theorem isWithinBoundary_boundaryCenter : isWithinBoundary boundaryCenter := by
  show calculateDistance boundaryCenter.2 boundaryCenter.1 boundaryCenter.2
      boundaryCenter.1 ≤ boundaryRadius
  rw [calculateDistance_self]
  unfold boundaryRadius
  norm_num

/-- A point 90 degrees of latitude north of the boundary center fails the
containment test. -/
theorem not_isWithinBoundary_north :
    ¬ isWithinBoundary (boundaryCenter.1, boundaryCenter.2 + 90) := by
  show ¬ (calculateDistance (boundaryCenter.2 + 90) boundaryCenter.1
      boundaryCenter.2 boundaryCenter.1 ≤ boundaryRadius)
  rw [calculateDistance_plus90]
  unfold boundaryRadius
  push_neg
  nlinarith [Real.pi_gt_three]

end HeerlenMap

namespace HeerlenMap

/-- A feature of the global `mapLocations.features` collection.  Regular
locations (built by `getGeoData`, src/app.js lines 641-670) carry
`properties.id`; AR locations (built by `getARData`, lines 699-720) have
no `id` property, modelled by `none`.  `coordinates` is GeoJSON
`[lng, lat]`.  The remaining properties (name, description, opening
hours, ...) are presentation data with no bearing on the claims and are
left out of the model. -/
structure Feature where
  id : Option String
  coordinates : ℝ × ℝ

/-- One record of the `location-list` CMS DOM list read by `getGeoData`
(src/app.js lines 615-639), reduced to the fields that reach the model. -/
structure GeoRecord where
  locationID : String
  locationLat : ℝ
  locationLong : ℝ

/-- One record of the `location-ar-list` CMS DOM list read by `getARData`
(src/app.js lines 684-697), reduced to the fields that reach the model. -/
structure ARRecord where
  slug : String
  latitude : ℝ
  longitude : ℝ

/-- The feature `getGeoData` builds from a regular location record
(src/app.js lines 641-670). -/
def geoFeature (r : GeoRecord) : Feature :=
  { id := some r.locationID, coordinates := (r.locationLong, r.locationLat) }

/-- The feature `getARData` builds from an AR location record
(src/app.js lines 699-720); its properties carry no `id`. -/
def arFeature (r : ARRecord) : Feature :=
  { id := none, coordinates := (r.longitude, r.latitude) }

/-- Source `getGeoData` (src/app.js lines 614-677): for each record of the
regular location list, append its feature to `mapLocations.features`
unless some feature with the same `properties.id` is already present. -/
def getGeoData (rows : List GeoRecord) (features : List Feature) : List Feature :=
  rows.foldl
    (fun features row =>
      if features.any fun feat => feat.id == some row.locationID then features
      else features ++ [geoFeature row])
    features

/-- Source `getARData` (src/app.js lines 682-724): append one feature per AR
record, unconditionally. -/
def getARData (rows : List ARRecord) (features : List Feature) : List Feature :=
  rows.foldl (fun features row => features ++ [arFeature row]) features

/-- The load sequence at src/app.js lines 727-728: `mapLocations.features`
starts empty, then `getGeoData()` runs, then `getARData()`. -/
def loadMapLocations (geoRows : List GeoRecord) (arRows : List ARRecord) :
    List Feature :=
  getARData arRows (getGeoData geoRows [])

theorem getGeoData_nil (features : List Feature) :
    getGeoData [] features = features := rfl

theorem getGeoData_cons (row : GeoRecord) (rows : List GeoRecord)
    (features : List Feature) :
    getGeoData (row :: rows) features =
      getGeoData rows
        (if features.any fun feat => feat.id == some row.locationID then features
         else features ++ [geoFeature row]) := rfl

theorem getARData_nil (features : List Feature) :
    getARData [] features = features := rfl

theorem getARData_cons (row : ARRecord) (rows : List ARRecord)
    (features : List Feature) :
    getARData (row :: rows) features =
      getARData rows (features ++ [arFeature row]) := rfl

theorem getGeoData_append_only (rows : List GeoRecord) (features : List Feature) :
    ∃ tail, getGeoData rows features = features ++ tail := by
  induction rows generalizing features with
  | nil => exact ⟨[], by simp [getGeoData_nil]⟩
  | cons row rows ih =>
    rw [getGeoData_cons]
    by_cases h : (features.any fun feat => feat.id == some row.locationID) = true
    · rw [if_pos h]
      exact ih features
    · rw [if_neg h]
      obtain ⟨tail, htail⟩ := ih (features ++ [geoFeature row])
      exact ⟨geoFeature row :: tail, by rw [htail, List.append_assoc]; rfl⟩

theorem getARData_append_only (rows : List ARRecord) (features : List Feature) :
    ∃ tail, getARData rows features = features ++ tail := by
  induction rows generalizing features with
  | nil => exact ⟨[], by simp [getARData_nil]⟩
  | cons row rows ih =>
    rw [getARData_cons]
    obtain ⟨tail, htail⟩ := ih (features ++ [arFeature row])
    exact ⟨arFeature row :: tail, by rw [htail, List.append_assoc]; rfl⟩

end HeerlenMap

namespace HeerlenMap

/-- The per-pair invariant actually maintained by the loaders: any two
features of the collection either differ in `id` or the earlier one has
no `id` at all (AR features). -/
def IdDisjoint (f g : Feature) : Prop :=
  f.id = none ∨ f.id ≠ g.id

theorem getGeoData_pairwise (rows : List GeoRecord) (features : List Feature)
    (h : features.Pairwise IdDisjoint) :
    (getGeoData rows features).Pairwise IdDisjoint := by
  induction rows generalizing features with
  | nil => simpa [getGeoData_nil] using h
  | cons row rows ih =>
    rw [getGeoData_cons]
    by_cases hany : (features.any fun feat => feat.id == some row.locationID) = true
    · rw [if_pos hany]
      exact ih features h
    · rw [if_neg hany]
      refine ih _ (List.pairwise_append.mpr ⟨h, List.pairwise_singleton _ _, ?_⟩)
      intro f hf g hg
      simp only [List.mem_singleton] at hg
      subst hg
      right
      simp only [List.any_eq_true, not_exists, not_and] at hany
      intro hid
      have := hany f hf
      simp [geoFeature, hid] at this

theorem getARData_pairwise (rows : List ARRecord) (features : List Feature)
    (h : features.Pairwise IdDisjoint) :
    (getARData rows features).Pairwise IdDisjoint := by
  induction rows generalizing features with
  | nil => simpa [getARData_nil] using h
  | cons row rows ih =>
    rw [getARData_cons]
    refine ih _ (List.pairwise_append.mpr ⟨h, List.pairwise_singleton _ _, ?_⟩)
    intro f hf g hg
    simp only [List.mem_singleton] at hg
    subst hg
    cases hid : f.id with
    | none => exact Or.inl hid
    | some v => exact Or.inr (by simp [arFeature, hid])

end HeerlenMap

namespace HeerlenMap

/-- JavaScript `Math.round`: nearest integer, halves rounded toward
positive infinity. -/
noncomputable def jsRound (x : ℝ) : ℤ := ⌊x + 1 / 2⌋

/-- A distance marker as created by
`GeolocationManager.updateDistanceMarkers` (src/app.js lines 97-114):
placed at the feature's coordinates, labelled with the rounded distance
in meters. -/
structure DistanceMarker where
  lngLat : ℝ × ℝ
  label : ℤ

/-- The marker built for a qualifying feature (src/app.js lines 97-103). -/
noncomputable def distanceMarkerFor (feature : Feature) (distance : ℝ) :
    DistanceMarker :=
  { lngLat := feature.coordinates, label := jsRound distance }

/-- The marker list built by `GeolocationManager.updateDistanceMarkers`
(src/app.js lines 88-116): one marker per feature of
`mapLocations.features` whose distance to the user (in meters) is at most
`radiusInMeters`, in input order. -/
noncomputable def updateDistanceMarkers (features : List Feature)
    (radiusInMeters : ℝ) (userPosition : ℝ × ℝ) : List DistanceMarker :=
  features.foldl
    (fun markers feature =>
      let featureCoords := feature.coordinates
      let distance := 1000 * calculateDistance userPosition.2 userPosition.1
        featureCoords.2 featureCoords.1
      if distance ≤ radiusInMeters then
        markers ++ [distanceMarkerFor feature distance]
      else markers)
    []

theorem updateDistanceMarkers_foldl (features : List Feature)
    (radiusInMeters : ℝ) (userPosition : ℝ × ℝ) (acc : List DistanceMarker) :
    features.foldl
      (fun markers feature =>
        let featureCoords := feature.coordinates
        let distance := 1000 * calculateDistance userPosition.2 userPosition.1
          featureCoords.2 featureCoords.1
        if distance ≤ radiusInMeters then
          markers ++ [distanceMarkerFor feature distance]
        else markers)
      acc =
    acc ++
      (features.filter fun feature =>
          decide (1000 * calculateDistance userPosition.2 userPosition.1
            feature.coordinates.2 feature.coordinates.1 ≤ radiusInMeters)).map
        (fun feature =>
          distanceMarkerFor feature
            (1000 * calculateDistance userPosition.2 userPosition.1
              feature.coordinates.2 feature.coordinates.1)) := by
  induction features generalizing acc with
  | nil => simp
  | cons feature features ih =>
    simp only [List.foldl_cons, List.filter_cons]
    by_cases hp : 1000 * calculateDistance userPosition.2 userPosition.1
        feature.coordinates.2 feature.coordinates.1 ≤ radiusInMeters
    · simp [hp, ih]
    · simp [hp, ih]

/-- The `updateDistanceMarkers` output characterised as an order-preserving
filter of the feature collection. -/
theorem updateDistanceMarkers_eq (features : List Feature)
    (radiusInMeters : ℝ) (userPosition : ℝ × ℝ) :
    updateDistanceMarkers features radiusInMeters userPosition =
      (features.filter fun feature =>
          decide (1000 * calculateDistance userPosition.2 userPosition.1
            feature.coordinates.2 feature.coordinates.1 ≤ radiusInMeters)).map
        (fun feature =>
          distanceMarkerFor feature
            (1000 * calculateDistance userPosition.2 userPosition.1
              feature.coordinates.2 feature.coordinates.1)) := by
  unfold updateDistanceMarkers
  simpa using updateDistanceMarkers_foldl features radiusInMeters userPosition []

end HeerlenMap

namespace HeerlenMap

/-- The mutable state read and written by the geolocation handlers of
`GeolocationManager` (src/app.js lines 56-66, 190-191) together with the
map camera.  `mapCenter` models `map.getCenter()`: it records the target
of the last camera-centering command, i.e. the camera center once that
move has settled. -/
structure GeoState where
  isPopupOpen : Bool
  isFirstLocation : Bool
  isTracking : Bool
  mapCenter : ℝ × ℝ
  distanceMarkers : List DistanceMarker
  searchRadius : Option (List (ℝ × ℝ))

/-- The manager state at startup (src/app.js lines 40-49, 62-63,
190-191): no popup, first location pending, not tracking, camera at
`CONFIG.MAP.center`, no markers, no search-radius geometry. -/
noncomputable def initialGeoState : GeoState :=
  { isPopupOpen := false
    isFirstLocation := true
    isTracking := false
    mapCenter := configMapCenter
    distanceMarkers := []
    searchRadius := none }

/-- The side-effect commands the handlers issue to the map view / DOM. -/
inductive Cmd where
  | flyTo (center : ℝ × ℝ) (zoom pitch bearing : ℝ)
  | easeTo (center : ℝ × ℝ)
  | easeOrientation (bearing pitch : ℝ)
  | triggerGeolocate
  | showBoundaryPopup
  | installBlockerOverlay

/-- Source `GeolocationManager.updateSearchRadius(center)` (src/app.js lines
384-426): rebuild the 64-point search-radius ring around the user. -/
noncomputable def runUpdateSearchRadius (radiusInMeters : ℝ) (s : GeoState)
    (center : ℝ × ℝ) : GeoState :=
  { s with searchRadius := some (generateCircle center radiusInMeters 64) }

/-- Source `GeolocationManager.updateDistanceMarkers(userPosition)` as a state
operation (src/app.js lines 81-117): every existing distance marker is
removed (lines 82-86) and the marker list is rebuilt from scratch for the
given position (lines 88-116). -/
noncomputable def runUpdateDistanceMarkers (features : List Feature)
    (radiusInMeters : ℝ) (s : GeoState) (userPosition : ℝ × ℝ) : GeoState :=
  { s with distanceMarkers :=
      updateDistanceMarkers features radiusInMeters userPosition }

/-- Source `GeolocationManager.handleUserLocation(position)` (src/app.js lines
122-162).  `features` stands for the global `mapLocations.features`,
`radiusInMeters` for `this.radiusInMeters`, `heading` for
`position.coords.heading || 0`.  In bounds: refresh search radius and
distance markers; then, unless a popup is open, fly to the user on the
first location, else ease to the user when the camera moved more than
0.05 km away.  Out of bounds: trigger the geolocate control and show the
boundary popup, which flies the camera back to the boundary center with
zoom 14, pitch 0, bearing 0 (src/app.js lines 592-599). -/
noncomputable def handleUserLocation (features : List Feature)
    (radiusInMeters : ℝ) (s : GeoState) (heading : ℝ)
    (userPosition : ℝ × ℝ) : GeoState × List Cmd :=
  if isWithinBoundary userPosition then
    let s1 := runUpdateDistanceMarkers features radiusInMeters
      (runUpdateSearchRadius radiusInMeters s userPosition) userPosition
    if s1.isPopupOpen = false then
      if s1.isFirstLocation = true then
        ({ s1 with mapCenter := userPosition, isFirstLocation := false },
          [Cmd.flyTo userPosition 17.5 45 heading])
      else
        let mapCenter := s1.mapCenter
        let distanceChange := calculateDistance mapCenter.2 mapCenter.1
          userPosition.2 userPosition.1
        if 0.05 < distanceChange then
          ({ s1 with mapCenter := userPosition }, [Cmd.easeTo userPosition])
        else (s1, [])
    else (s1, [])
  else
    ({ s with mapCenter := boundaryCenter },
      [Cmd.triggerGeolocate, Cmd.showBoundaryPopup,
        Cmd.flyTo boundaryCenter 14 0 0])

/-- The `trackuserlocationend` handler (src/app.js lines 225-236): stop
tracking, re-arm the first-location flag, reset bearing/pitch, clear the
search radius and remove all distance markers. -/
noncomputable def onTrackUserLocationEnd (s : GeoState) : GeoState × List Cmd :=
  ({ s with
      isTracking := false
      isFirstLocation := true
      searchRadius := none
      distanceMarkers := [] },
    [Cmd.easeOrientation 0 45])

/-- The `moveend` drift guard (src/app.js lines 1662-1705): unless a
camera animation is in flight, measure the distance from the settled
camera center to the boundary center; beyond 1 km install the
input-blocking overlay and fly back to the default view. -/
noncomputable def onMoveEnd (isEasing : Bool) (currentCenter : ℝ × ℝ) :
    List Cmd :=
  if isEasing = true then []
  else
    let distance := calculateDistance currentCenter.2 currentCenter.1
      boundaryCenter.2 boundaryCenter.1
    if 1 < distance then
      [Cmd.installBlockerOverlay, Cmd.flyTo configMapCenter 17 45 (-17.6)]
    else []

/-- Message for error code 1 (src/app.js line 452). -/
def errorMessage1 : String :=
  "Locatie toegang geweigerd. Schakel het in bij je instellingen."

/-- Message for error code 2 (src/app.js line 453). -/
def errorMessage2 : String :=
  "Locatie niet beschikbaar. Controleer je apparaat instellingen."

/-- Message for error code 3 (src/app.js line 454). -/
def errorMessage3 : String :=
  "Verzoek verlopen. Probeer opnieuw."

/-- Default message for any other error code (src/app.js line 455). -/
def errorMessageDefault : String :=
  "Er is een fout opgetreden bij het ophalen van je locatie."

/-- The `errorMessages` lookup table (src/app.js lines 451-456): JS object
access `errorMessages[error.code]` yields `undefined` (`none`) for codes
other than 1, 2, 3. -/
def errorMessages (code : ℕ) : Option String :=
  if code = 1 then some errorMessage1
  else if code = 2 then some errorMessage2
  else if code = 3 then some errorMessage3
  else none

/-- Source `GeolocationManager.handleGeolocationError(error)` (src/app.js lines
448-459): show the notification for the error code, falling back to the
default message (`errorMessages[error.code] || errorMessages.default`);
no manager state is touched. -/
def handleGeolocationError (s : GeoState) (code : ℕ) : GeoState × String :=
  (s, (errorMessages code).getD errorMessageDefault)

theorem runUpdateSearchRadius_isPopupOpen (r : ℝ) (s : GeoState) (c : ℝ × ℝ) :
    (runUpdateSearchRadius r s c).isPopupOpen = s.isPopupOpen := rfl

theorem runUpdateDistanceMarkers_isPopupOpen (fs : List Feature) (r : ℝ)
    (s : GeoState) (u : ℝ × ℝ) :
    (runUpdateDistanceMarkers fs r s u).isPopupOpen = s.isPopupOpen := rfl

theorem runUpdateDistanceMarkers_isFirstLocation (fs : List Feature) (r : ℝ)
    (s : GeoState) (u : ℝ × ℝ) :
    (runUpdateDistanceMarkers fs r s u).isFirstLocation =
      s.isFirstLocation := rfl

theorem runUpdateDistanceMarkers_mapCenter (fs : List Feature) (r : ℝ)
    (s : GeoState) (u : ℝ × ℝ) :
    (runUpdateDistanceMarkers fs r s u).mapCenter = s.mapCenter := rfl

end HeerlenMap

namespace HeerlenMap

/-- C1: for every point `P`, `isWithinBoundary(P)` holds iff the haversine
distance from `P` to the boundary center is at most the boundary radius;
in particular the test accepts the center itself and accepts any point at
exactly the radius distance (boundary-inclusive). -/
theorem isWithinBoundary_iff_distance_le :
    (∀ position : ℝ × ℝ,
      isWithinBoundary position ↔
        calculateDistance position.2 position.1 boundaryCenter.2
          boundaryCenter.1 ≤ boundaryRadius) ∧
    isWithinBoundary boundaryCenter ∧
    (∀ position : ℝ × ℝ,
      calculateDistance position.2 position.1 boundaryCenter.2
          boundaryCenter.1 = boundaryRadius →
      isWithinBoundary position) :=
  ⟨fun _ => Iff.rfl, isWithinBoundary_boundaryCenter, fun _ h => le_of_eq h⟩

/-- C4: the proximity query returns one marker per feature whose haversine
distance to the user, in meters, is at most the radius; the qualifying
features are an order-preserving sublist of the input, and the output is
empty exactly when no feature qualifies. -/
theorem updateDistanceMarkers_within_radius (features : List Feature)
    (radiusInMeters : ℝ) (userPosition : ℝ × ℝ) :
    (updateDistanceMarkers features radiusInMeters userPosition =
      ((features.filter fun feature =>
          decide (1000 * calculateDistance userPosition.2 userPosition.1
            feature.coordinates.2 feature.coordinates.1 ≤ radiusInMeters)).map
        fun feature =>
          distanceMarkerFor feature
            (1000 * calculateDistance userPosition.2 userPosition.1
              feature.coordinates.2 feature.coordinates.1))) ∧
    (∀ feature : Feature,
      feature ∈ (features.filter fun feature =>
          decide (1000 * calculateDistance userPosition.2 userPosition.1
            feature.coordinates.2 feature.coordinates.1 ≤ radiusInMeters)) ↔
        feature ∈ features ∧
          1000 * calculateDistance userPosition.2 userPosition.1
            feature.coordinates.2 feature.coordinates.1 ≤ radiusInMeters) ∧
    (features.filter fun feature =>
        decide (1000 * calculateDistance userPosition.2 userPosition.1
          feature.coordinates.2 feature.coordinates.1 ≤ radiusInMeters)).Sublist
      features ∧
    (updateDistanceMarkers features radiusInMeters userPosition = [] ↔
      ∀ feature ∈ features,
        ¬ (1000 * calculateDistance userPosition.2 userPosition.1
          feature.coordinates.2 feature.coordinates.1 ≤ radiusInMeters)) := by
  refine ⟨updateDistanceMarkers_eq features radiusInMeters userPosition,
    fun feature => ?_, List.filter_sublist features, ?_⟩
  · rw [List.mem_filter, decide_eq_true_eq]
  · rw [updateDistanceMarkers_eq, List.map_eq_nil_iff, List.filter_eq_nil_iff]
    simp only [decide_eq_true_eq]

/-- C5 (amended): equal coordinate pairs have haversine distance zero.
The converse direction of the original claim is false, see the
counterexample. -/
theorem calculateDistance_eq_zero_of_eq (a b : ℝ × ℝ) (h : a = b) :
    calculateDistance a.1 a.2 b.1 b.2 = 0 := by
  subst h
  exact calculateDistance_self a.1 a.2

theorem calculateDistance_eq_zero_of_eq_witness :
    calculateDistance ((0, 0) : ℝ × ℝ).1 ((0, 0) : ℝ × ℝ).2
      ((0, 0) : ℝ × ℝ).1 ((0, 0) : ℝ × ℝ).2 = 0 :=
  calculateDistance_eq_zero_of_eq (0, 0) (0, 0) rfl

/-- C5 counterexample: the pairs `(0, 0)` and `(0, 360)` (latitude 0,
longitudes 0 and 360 degrees) are distinct yet have haversine distance
zero, so distance zero does not imply equality of coordinate pairs. -/
theorem calculateDistance_zero_iff_eq_false :
    calculateDistance 0 0 0 360 = 0 ∧ ((0, 0) : ℝ × ℝ) ≠ ((0, 360) : ℝ × ℝ) := by
  constructor
  · apply calculateDistance_eq_zero_of_sin
    · norm_num
    · rw [show ((360 : ℝ) - 0) * (Real.pi / 180) / 2 = Real.pi by ring]
      exact Real.sin_pi
  · intro h
    have h2 : (0 : ℝ) = 360 := congrArg Prod.snd h
    norm_num at h2

/-- C6: for every center, radius and positive point count the
search-radius circle generator returns `pointCount + 1` points whose
first and last entries coincide, and the boundary circle is a closed
65-point ring. -/
theorem circlePolygon_closed_ring (center : ℝ × ℝ) (radiusInM : ℝ)
    (pointCount : ℕ) (_hR : 0 < radiusInM) (hN : 0 < pointCount) :
    ((generateCircle center radiusInM pointCount).length = pointCount + 1 ∧
      (generateCircle center radiusInM pointCount).head? =
        (generateCircle center radiusInM pointCount).getLast?) ∧
    (createBoundaryCircle.length = 65 ∧
      createBoundaryCircle.head? = createBoundaryCircle.getLast?) :=
  ⟨generateCircle_spec center radiusInM pointCount hN, createBoundaryCircle_spec⟩

theorem circlePolygon_closed_ring_witness :
    (((generateCircle (0, 0) 25 64).length = 64 + 1 ∧
      (generateCircle (0, 0) 25 64).head? =
        (generateCircle (0, 0) 25 64).getLast?) ∧
    (createBoundaryCircle.length = 65 ∧
      createBoundaryCircle.head? = createBoundaryCircle.getLast?)) :=
  circlePolygon_closed_ring (0, 0) 25 64 (by norm_num) (by norm_num)

/-- C7: after a settled camera move with no correction in flight, the
drift guard emits the blocking overlay and the corrective fly-to iff the
haversine distance from the camera center to the boundary center exceeds
1 km; nothing is emitted while a camera animation is easing. -/
theorem onMoveEnd_correction_iff :
    ∀ (isEasing : Bool) (currentCenter : ℝ × ℝ),
      (onMoveEnd isEasing currentCenter ≠ [] ↔
        isEasing = false ∧
          1 < calculateDistance currentCenter.2 currentCenter.1
            boundaryCenter.2 boundaryCenter.1) ∧
      (1 < calculateDistance currentCenter.2 currentCenter.1
          boundaryCenter.2 boundaryCenter.1 →
        onMoveEnd false currentCenter =
          [Cmd.installBlockerOverlay,
            Cmd.flyTo configMapCenter 17 45 (-17.6)]) ∧
      (calculateDistance currentCenter.2 currentCenter.1 boundaryCenter.2
          boundaryCenter.1 ≤ 1 →
        onMoveEnd false currentCenter = []) ∧
      onMoveEnd true currentCenter = [] := by
  intro isEasing currentCenter
  cases isEasing with
  | true => simp [onMoveEnd]
  | false =>
    by_cases hd : 1 < calculateDistance currentCenter.2 currentCenter.1
        boundaryCenter.2 boundaryCenter.1
    · simp [onMoveEnd, hd]
    · simp [onMoveEnd, hd]

/-- C9: geolocation error handling leaves the manager state untouched and
maps error codes to notification messages 1:1 - codes 1, 2, 3 get three
pairwise distinct messages, every other code gets the default message
(itself distinct from the other three). -/
theorem handleGeolocationError_spec :
    (∀ (s : GeoState) (code : ℕ), (handleGeolocationError s code).1 = s) ∧
    (∀ s : GeoState,
      (handleGeolocationError s 1).2 = errorMessage1 ∧
      (handleGeolocationError s 2).2 = errorMessage2 ∧
      (handleGeolocationError s 3).2 = errorMessage3) ∧
    (∀ (s : GeoState) (code : ℕ), code ≠ 1 → code ≠ 2 → code ≠ 3 →
      (handleGeolocationError s code).2 = errorMessageDefault) ∧
    (errorMessage1 ≠ errorMessage2 ∧ errorMessage1 ≠ errorMessage3 ∧
      errorMessage2 ≠ errorMessage3 ∧ errorMessage1 ≠ errorMessageDefault ∧
      errorMessage2 ≠ errorMessageDefault ∧
      errorMessage3 ≠ errorMessageDefault) := by
  refine ⟨fun s code => rfl, fun s => ⟨rfl, rfl, rfl⟩, ?_, ?_⟩
  · intro s code h1 h2 h3
    simp [handleGeolocationError, errorMessages, h1, h2, h3]
  · refine ⟨?_, ?_, ?_, ?_, ?_, ?_⟩ <;> decide

/-- C10: rebuilding the distance markers is idempotent and the resulting
marker set is independent of whatever markers existed before - markers
never accumulate across successive position updates. -/
theorem runUpdateDistanceMarkers_idempotent (features : List Feature)
    (radiusInMeters : ℝ) (s s' : GeoState) (userPosition : ℝ × ℝ) :
    runUpdateDistanceMarkers features radiusInMeters
        (runUpdateDistanceMarkers features radiusInMeters s userPosition)
        userPosition =
      runUpdateDistanceMarkers features radiusInMeters s userPosition ∧
    (runUpdateDistanceMarkers features radiusInMeters s
        userPosition).distanceMarkers =
      (runUpdateDistanceMarkers features radiusInMeters s'
        userPosition).distanceMarkers :=
  ⟨rfl, rfl⟩

end HeerlenMap

namespace HeerlenMap

theorem runUpdateSearchRadius_isFirstLocation (r : ℝ) (s : GeoState) (c : ℝ × ℝ) :
    (runUpdateSearchRadius r s c).isFirstLocation = s.isFirstLocation := rfl

theorem runUpdateSearchRadius_mapCenter (r : ℝ) (s : GeoState) (c : ℝ × ℝ) :
    (runUpdateSearchRadius r s c).mapCenter = s.mapCenter := rfl

/-- In-bounds fix with a popup open: state beyond the marker / search
radius refresh is unchanged and no command is emitted. -/
theorem handleUserLocation_popupOpen (features : List Feature) (r : ℝ)
    (s : GeoState) (heading : ℝ) (p : ℝ × ℝ)
    (hpopup : s.isPopupOpen = true) (hin : isWithinBoundary p) :
    handleUserLocation features r s heading p =
      (runUpdateDistanceMarkers features r (runUpdateSearchRadius r s p) p,
        []) := by
  unfold handleUserLocation
  rw [if_pos hin]
  simp only [runUpdateDistanceMarkers_isPopupOpen,
    runUpdateSearchRadius_isPopupOpen, hpopup]
  rw [if_neg (by simp)]

/-- In-bounds first fix with no popup open: fly to the user and clear the
first-location flag. -/
theorem handleUserLocation_first (features : List Feature) (r : ℝ)
    (s : GeoState) (heading : ℝ) (p : ℝ × ℝ)
    (hpopup : s.isPopupOpen = false) (hfirst : s.isFirstLocation = true)
    (hin : isWithinBoundary p) :
    handleUserLocation features r s heading p =
      ({ runUpdateDistanceMarkers features r (runUpdateSearchRadius r s p) p
          with mapCenter := p, isFirstLocation := false },
        [Cmd.flyTo p 17.5 45 heading]) := by
  unfold handleUserLocation
  rw [if_pos hin]
  simp only [runUpdateDistanceMarkers_isPopupOpen,
    runUpdateSearchRadius_isPopupOpen, hpopup,
    runUpdateDistanceMarkers_isFirstLocation,
    runUpdateSearchRadius_isFirstLocation, hfirst]
  simp

/-- In-bounds fix, no popup open, first fix already consumed: ease to the
user iff the camera center moved more than 0.05 km away. -/
theorem handleUserLocation_notFirst (features : List Feature) (r : ℝ)
    (s : GeoState) (heading : ℝ) (p : ℝ × ℝ)
    (hpopup : s.isPopupOpen = false) (hfirst : s.isFirstLocation = false)
    (hin : isWithinBoundary p) :
    handleUserLocation features r s heading p =
      (if 0.05 < calculateDistance s.mapCenter.2 s.mapCenter.1 p.2 p.1 then
        ({ runUpdateDistanceMarkers features r (runUpdateSearchRadius r s p) p
            with mapCenter := p }, [Cmd.easeTo p])
      else
        (runUpdateDistanceMarkers features r (runUpdateSearchRadius r s p) p,
          [])) := by
  unfold handleUserLocation
  rw [if_pos hin]
  simp only [runUpdateDistanceMarkers_isPopupOpen,
    runUpdateSearchRadius_isPopupOpen, hpopup,
    runUpdateDistanceMarkers_isFirstLocation,
    runUpdateSearchRadius_isFirstLocation, hfirst,
    runUpdateDistanceMarkers_mapCenter, runUpdateSearchRadius_mapCenter]
  simp

/-- Out-of-bounds fix: trigger the control, show the boundary popup and
fly back to the boundary center; the first-location flag is untouched. -/
theorem handleUserLocation_out (features : List Feature) (r : ℝ)
    (s : GeoState) (heading : ℝ) (p : ℝ × ℝ)
    (hout : ¬ isWithinBoundary p) :
    handleUserLocation features r s heading p =
      ({ s with mapCenter := boundaryCenter },
        [Cmd.triggerGeolocate, Cmd.showBoundaryPopup,
          Cmd.flyTo boundaryCenter 14 0 0]) := by
  unfold handleUserLocation
  rw [if_neg hout]

end HeerlenMap

namespace HeerlenMap

/-- The number of ease-to-user camera commands in an emitted command
list. -/
def countEaseTo (cmds : List Cmd) : ℕ :=
  cmds.countP fun cmd =>
    match cmd with
    | Cmd.easeTo _ => true
    | _ => false

/-- C3: from tracking state with no popup open and the first fix already
consumed, an in-bounds fix emits `easeTo` (and nothing else) iff the
camera center is more than 0.05 km from the new position; consequently
two consecutive in-bounds fixes, the camera sitting on the first, emit
exactly one `easeTo` when they are more than 0.05 km apart and none when
they are closer. -/
theorem easeTo_hysteresis (features : List Feature) (radiusInMeters : ℝ)
    (s : GeoState) (heading1 heading2 : ℝ) (p1 p2 : ℝ × ℝ)
    (hpopup : s.isPopupOpen = false) (hfirst : s.isFirstLocation = false)
    (hin1 : isWithinBoundary p1) (hin2 : isWithinBoundary p2) :
    ((handleUserLocation features radiusInMeters s heading1 p1).2 =
      if 0.05 < calculateDistance s.mapCenter.2 s.mapCenter.1 p1.2 p1.1
      then [Cmd.easeTo p1] else []) ∧
    (s.mapCenter = p1 →
      countEaseTo
        ((handleUserLocation features radiusInMeters s heading1 p1).2 ++
          (handleUserLocation features radiusInMeters
            (handleUserLocation features radiusInMeters s heading1 p1).1
            heading2 p2).2) =
        if 0.05 < calculateDistance p1.2 p1.1 p2.2 p2.1 then 1 else 0) := by
  have hstep1 := handleUserLocation_notFirst features radiusInMeters s heading1
    p1 hpopup hfirst hin1
  constructor
  · rw [hstep1, apply_ite Prod.snd]
  · intro hcam
    have hzero : calculateDistance s.mapCenter.2 s.mapCenter.1 p1.2 p1.1 = 0 := by
      rw [hcam]
      exact calculateDistance_self p1.2 p1.1
    have hnot : ¬ (0.05 < calculateDistance s.mapCenter.2 s.mapCenter.1 p1.2 p1.1) := by
      rw [hzero]; norm_num
    rw [hstep1, if_neg hnot]
    have hstep2 := handleUserLocation_notFirst features radiusInMeters
      (runUpdateDistanceMarkers features radiusInMeters
        (runUpdateSearchRadius radiusInMeters s p1) p1)
      heading2 p2
      (by rw [runUpdateDistanceMarkers_isPopupOpen,
        runUpdateSearchRadius_isPopupOpen]; exact hpopup)
      (by rw [runUpdateDistanceMarkers_isFirstLocation,
        runUpdateSearchRadius_isFirstLocation]; exact hfirst)
      hin2
    rw [hstep2]
    rw [runUpdateDistanceMarkers_mapCenter, runUpdateSearchRadius_mapCenter, hcam]
    by_cases hd : 0.05 < calculateDistance p1.2 p1.1 p2.2 p2.1
    · rw [if_pos hd, if_pos hd]
      simp [countEaseTo]
    · rw [if_neg hd, if_neg hd]
      simp [countEaseTo]

theorem easeTo_hysteresis_witness :
    (handleUserLocation [] 25
      { initialGeoState with
          isFirstLocation := false
          mapCenter := boundaryCenter }
      0 boundaryCenter).2 = [] := by
  have h := (easeTo_hysteresis [] 25
    { initialGeoState with
        isFirstLocation := false
        mapCenter := boundaryCenter }
    0 0 boundaryCenter boundaryCenter rfl rfl
    isWithinBoundary_boundaryCenter isWithinBoundary_boundaryCenter).1
  rw [h]
  have hc : ¬ ((0.05 : ℝ) <
      calculateDistance
        ({ initialGeoState with
            isFirstLocation := false
            mapCenter := boundaryCenter } : GeoState).mapCenter.2
        ({ initialGeoState with
            isFirstLocation := false
            mapCenter := boundaryCenter } : GeoState).mapCenter.1
        boundaryCenter.2 boundaryCenter.1) := by
    rw [show ({ initialGeoState with
        isFirstLocation := false
        mapCenter := boundaryCenter } : GeoState).mapCenter = boundaryCenter
      from rfl]
    rw [calculateDistance_self]
    norm_num
  rw [if_neg hc]

end HeerlenMap

namespace HeerlenMap

/-- C2: along a fix sequence in-bounds, out-of-bounds, in-bounds again
(no explicit stop), the session's first fix flies to the user, leaving
the boundary does not re-arm the first-location flag, and the re-entry
fix never emits a fly-to-user command: it emits exactly an `easeTo` when
the camera moved beyond the 0.05 km hysteresis and nothing otherwise.
Only the explicit `trackuserlocationend` session end re-arms the flag. -/
theorem reentry_not_rearmed (features : List Feature) (radiusInMeters : ℝ)
    (s0 : GeoState) (heading1 heading2 heading3 : ℝ) (pIn pOut pRe : ℝ × ℝ)
    (hfirst : s0.isFirstLocation = true) (hpopup : s0.isPopupOpen = false)
    (hin : isWithinBoundary pIn) (hout : ¬ isWithinBoundary pOut)
    (hre : isWithinBoundary pRe) :
    (handleUserLocation features radiusInMeters s0 heading1 pIn).2 =
      [Cmd.flyTo pIn 17.5 45 heading1] ∧
    (handleUserLocation features radiusInMeters
        (handleUserLocation features radiusInMeters s0 heading1 pIn).1
        heading2 pOut).1.isFirstLocation = false ∧
    ((handleUserLocation features radiusInMeters
        (handleUserLocation features radiusInMeters
          (handleUserLocation features radiusInMeters s0 heading1 pIn).1
          heading2 pOut).1
        heading3 pRe).2 =
      if 0.05 < calculateDistance
          (handleUserLocation features radiusInMeters
            (handleUserLocation features radiusInMeters s0 heading1 pIn).1
            heading2 pOut).1.mapCenter.2
          (handleUserLocation features radiusInMeters
            (handleUserLocation features radiusInMeters s0 heading1 pIn).1
            heading2 pOut).1.mapCenter.1
          pRe.2 pRe.1
      then [Cmd.easeTo pRe] else []) ∧
    (∀ (c : ℝ × ℝ) (z pt b : ℝ),
      Cmd.flyTo c z pt b ∉
        (handleUserLocation features radiusInMeters
          (handleUserLocation features radiusInMeters
            (handleUserLocation features radiusInMeters s0 heading1 pIn).1
            heading2 pOut).1
          heading3 pRe).2) ∧
    (onTrackUserLocationEnd
        (handleUserLocation features radiusInMeters
          (handleUserLocation features radiusInMeters
            (handleUserLocation features radiusInMeters s0 heading1 pIn).1
            heading2 pOut).1
          heading3 pRe).1).1.isFirstLocation = true := by
  have hA := handleUserLocation_first features radiusInMeters s0 heading1 pIn
    hpopup hfirst hin
  have hB := handleUserLocation_out features radiusInMeters
    (handleUserLocation features radiusInMeters s0 heading1 pIn).1 heading2
    pOut hout
  have hB1 : (handleUserLocation features radiusInMeters
      (handleUserLocation features radiusInMeters s0 heading1 pIn).1 heading2
      pOut).1 =
      { (handleUserLocation features radiusInMeters s0 heading1 pIn).1 with
        mapCenter := boundaryCenter } := by rw [hB]
  have hBfirst : (handleUserLocation features radiusInMeters
      (handleUserLocation features radiusInMeters s0 heading1 pIn).1 heading2
      pOut).1.isFirstLocation = false := by
    rw [hB1, hA]
  have hBpopup : (handleUserLocation features radiusInMeters
      (handleUserLocation features radiusInMeters s0 heading1 pIn).1 heading2
      pOut).1.isPopupOpen = false := by
    rw [hB1, hA]
    exact hpopup
  have hC := handleUserLocation_notFirst features radiusInMeters
    (handleUserLocation features radiusInMeters
      (handleUserLocation features radiusInMeters s0 heading1 pIn).1 heading2
      pOut).1
    heading3 pRe hBpopup hBfirst hre
  refine ⟨by rw [hA], hBfirst, by rw [hC, apply_ite Prod.snd], ?_, ?_⟩
  · intro c z pt b
    rw [hC, apply_ite Prod.snd]
    by_cases hd : 0.05 < calculateDistance
        (handleUserLocation features radiusInMeters
          (handleUserLocation features radiusInMeters s0 heading1 pIn).1
          heading2 pOut).1.mapCenter.2
        (handleUserLocation features radiusInMeters
          (handleUserLocation features radiusInMeters s0 heading1 pIn).1
          heading2 pOut).1.mapCenter.1
        pRe.2 pRe.1
    · rw [if_pos hd]
      simp
    · rw [if_neg hd]
      simp
  · rfl

theorem reentry_not_rearmed_witness :
    (handleUserLocation [] 25 initialGeoState 0 boundaryCenter).2 =
      [Cmd.flyTo boundaryCenter 17.5 45 0] :=
  (reentry_not_rearmed [] 25 initialGeoState 0 0 0 boundaryCenter
    (boundaryCenter.1, boundaryCenter.2 + 90) boundaryCenter rfl rfl
    isWithinBoundary_boundaryCenter not_isWithinBoundary_north
    isWithinBoundary_boundaryCenter).1

end HeerlenMap

namespace HeerlenMap

/-- C8 (amended): the located-feature collection is append-only (both
loaders only ever append), and any two features either differ in id or
the earlier carries no id: regular locations are deduplicated by id,
while AR locations - which have no `id` property - are appended without
any deduplication. -/
theorem mapLocations_append_only_dedup :
    (∀ (geoRows : List GeoRecord) (arRows : List ARRecord),
      (loadMapLocations geoRows arRows).Pairwise IdDisjoint) ∧
    (∀ (rows : List GeoRecord) (features : List Feature),
      ∃ tail, getGeoData rows features = features ++ tail) ∧
    (∀ (rows : List ARRecord) (features : List Feature),
      ∃ tail, getARData rows features = features ++ tail) := by
  refine ⟨fun geoRows arRows => ?_, getGeoData_append_only,
    getARData_append_only⟩
  exact getARData_pairwise arRows _ (getGeoData_pairwise geoRows [] List.Pairwise.nil)

/-- C8 counterexample: loading an empty regular list and two AR records
produces two features sharing the same id (both have none), so the claim
that no two features of the loaded collection share the same id is
false. -/
theorem mapLocations_dedup_by_id_false :
    ¬ (loadMapLocations []
        [{ slug := "a", latitude := 0, longitude := 0 },
          { slug := "b", latitude := 1, longitude := 1 }]).Pairwise
        (fun f g => f.id ≠ g.id) := by
  intro h
  have hres : loadMapLocations []
      [{ slug := "a", latitude := 0, longitude := 0 },
        { slug := "b", latitude := 1, longitude := 1 }] =
      [arFeature { slug := "a", latitude := 0, longitude := 0 },
        arFeature { slug := "b", latitude := 1, longitude := 1 }] := rfl
  rw [hres] at h
  have h1 := (List.pairwise_cons.mp h).1
    (arFeature { slug := "b", latitude := 1, longitude := 1 })
    (List.mem_singleton.mpr rfl)
  exact h1 rfl

end HeerlenMap
